import Mathlib

/-!
# Session / repository state machine of `frontend/src/App.jsx`

A shallow embedding of the `App` component: its six `useState` cells, the three
asynchronous handlers (`loadUser`, `handleLogout`, `handleLoadRepos`), the JSX
render projection, and the event loop that interleaves user clicks with the
completion of outstanding requests.

Modelling conventions.

* A settled `fetch` is a `FetchOutcome`: either the promise rejected (network
  failure) or a response arrived, carrying its HTTP status and the result of
  `response.json()` (a parsed value, or the message of the error it threw).
* `err.message` is a `String`; the empty string stands for every falsy message
  (empty or missing), which is all that `err.message || fallback` observes.
* The session body is an arbitrary JSON value (`setUser(data)` stores it as is).
  The repositories body is typed as an array of repository records, the shape
  the `/api/github/repos` endpoint returns and the render code consumes.
* JSON numbers are integers; only their zero-ness is ever observed.
-/

namespace App

/-! ## Data model -/

/-- JSON values, as produced by `response.json()`. The JavaScript value `null`
held initially by the `user` cell is `Json.null`. -/
inductive Json where
  | null
  | bool (b : Bool)
  | num (n : Int)
  | str (s : String)
  | arr (xs : List Json)
  | obj (kvs : List (String × Json))

/-- JavaScript truthiness of a JSON value: `null`, `false`, `0` and the empty
string are falsy, everything else (arrays and objects included) is truthy. -/
def Json.truthy : Json → Bool
  | .null => false
  | .bool b => b
  | .num n => n != 0
  | .str s => s != ""
  | .arr _ => true
  | .obj _ => true

/-- Property read `v.key` for the keys the component reads (`login`, `name`,
`avatar_url`, `email`); `none` is `undefined`. Only objects carry such keys. -/
def Json.getProp (v : Json) (key : String) : Option Json :=
  match v with
  | .obj kvs => kvs.lookup key
  | _ => none

/-- JavaScript `a || b` on possibly-undefined JSON values. -/
def jsOr (a b : Option Json) : Option Json :=
  match a with
  | some v => if v.truthy then some v else b
  | none => b

/-- Values of the `status` cell. -/
inductive Status where
  | loading | anon | authed | error
  deriving DecidableEq, Repr

/-- Values of the `repoStatus` cell. -/
inductive RepoStatus where
  | idle | loading | ready | error
  deriving DecidableEq, Repr

/-- One repository object, with the fields the render code reads. -/
structure Repo where
  id : Int
  full_name : String
  html_url : String
  private_ : Bool
  deriving DecidableEq, Repr

/-- The six `useState` cells of `App` (lines 6-11). -/
structure State where
  user : Json
  status : Status
  error : String
  repos : List Repo
  repoStatus : RepoStatus
  repoError : String

/-- Initial values of the cells, as passed to `useState`. -/
def initialState : State :=
  { user := .null, status := .loading, error := "", repos := [],
    repoStatus := .idle, repoError := "" }

/-- How an awaited `fetch` (followed, where the code does so, by
`response.json()`) settles. -/
inductive FetchOutcome (β : Type) where
  /-- The `fetch` promise rejected; `message` is `err.message`. -/
  | rejected (message : String)
  /-- A response arrived with the given HTTP status; `body` is the result of
  `response.json()`: the parsed value, or the message of the thrown error. -/
  | response (status : Nat) (body : Except String β)

/-- The `response.ok` flag: the status is in the range 200-299. -/
def responseOk (status : Nat) : Bool :=
  decide (200 ≤ status) && decide (status ≤ 299)

/-- The expression `err.message || fallback`. -/
def messageOr (message fallback : String) : String :=
  if message = "" then fallback else message

/-! ## Handlers -/

/-- The `catch` block of `loadUser` (lines 38-43). -/
def loadUserCatch (active : Bool) (message : String) (s : State) : State :=
  if active then
    { s with error := messageOr message "Something went wrong", status := .error }
  else s

/-- The function `loadUser` (lines 16-44), run to completion on the outcome of
its request; `active` is the value of the effect's flag when the awaited
promise settles. -/
def loadUser (active : Bool) (o : FetchOutcome Json) (s : State) : State :=
  match o with
  | .rejected message => loadUserCatch active message s
  | .response status body =>
    if status = 401 then
      if active then { s with status := .anon } else s
    else if !responseOk status then
      loadUserCatch active "Failed to load user" s
    else
      match body with
      | .error message => loadUserCatch active message s
      | .ok data =>
        if active then { s with user := data, status := .authed } else s

/-- The function `handleLogout` (lines 52-59), run to completion on the outcome
of its `POST /api/logout`. The response is never inspected; when the awaited
`fetch` rejects, the exception leaves the function before any setter runs. -/
def handleLogout (o : FetchOutcome Json) (s : State) : State :=
  match o with
  | .rejected _ => s
  | .response _ _ =>
    { s with user := .null, status := .anon, repos := [],
             repoStatus := .idle, repoError := "" }

/-- The synchronous prefix of `handleLoadRepos` (lines 62-63), up to the
`await fetch`. -/
def handleLoadReposBegin (s : State) : State :=
  { s with repoStatus := .loading, repoError := "" }

/-- The `catch` block of `handleLoadRepos` (lines 76-79). -/
def handleLoadReposCatch (message : String) (s : State) : State :=
  { s with repoError := messageOr message "Unable to load repositories",
           repoStatus := .error }

/-- The remainder of `handleLoadRepos` (lines 64-79), resumed when its request
settles. -/
def handleLoadReposSettle (o : FetchOutcome (List Repo)) (s : State) : State :=
  match o with
  | .rejected message => handleLoadReposCatch message s
  | .response status body =>
    if !responseOk status then
      handleLoadReposCatch "Failed to load repositories" s
    else
      match body with
      | .error message => handleLoadReposCatch message s
      | .ok data => { s with repos := data, repoStatus := .ready }

/-- The function `handleLoadRepos` (lines 61-80) run without interruption. -/
def handleLoadRepos (o : FetchOutcome (List Repo)) (s : State) : State :=
  handleLoadReposSettle o (handleLoadReposBegin s)

/-! ## Render projection -/

/-- One `<li>` of the repository list (lines 143-148). -/
structure RepoItem where
  key : Int
  href : String
  text : String
  pill : Bool
  deriving DecidableEq, Repr

/-- The load-repositories `<button>` (lines 125-131). -/
structure LoadButton where
  disabled : Bool
  label : String
  deriving DecidableEq, Repr

/-- The `authed` block (lines 109-153). The sign-out button is part of every
such block. -/
structure AuthedView where
  avatarSrc : Option Json
  avatarAlt : Option Json
  heading : Option Json
  handle : Option Json
  email : Option Json
  loadButton : LoadButton
  repoErrorText : Option String
  emptyMessage : Bool
  repoList : Option (List RepoItem)

/-- The content of `<main>` (lines 96-164): which of the four blocks are present,
and what they hold. -/
structure View where
  checking : Bool
  anonPanel : Bool
  authed : Option AuthedView
  errorPanel : Option String

/-- The `<li>` rendered for one repository. -/
def renderRepo (r : Repo) : RepoItem :=
  { key := r.id, href := r.html_url, text := r.full_name, pill := r.private_ }

/-- The block rendered under `status === "authed" && user` (lines 109-153). -/
def renderAuthed (s : State) : AuthedView :=
  { avatarSrc := s.user.getProp "avatar_url"
    avatarAlt := s.user.getProp "login"
    heading := jsOr (s.user.getProp "name") (s.user.getProp "login")
    handle := s.user.getProp "login"
    email := jsOr (s.user.getProp "email") (some (.str "Email hidden"))
    loadButton :=
      { disabled := decide (s.repoStatus = .loading)
        label := if s.repoStatus = .loading then "Loading..." else "Load repositories" }
    repoErrorText := if s.repoStatus = .error then some s.repoError else none
    emptyMessage := decide (s.repoStatus = .ready) && decide (s.repos.length = 0)
    repoList := if s.repos.length > 0 then some (s.repos.map renderRepo) else none }

/-- The JSX returned by `App` (lines 96-164), as a function of the cells. -/
def render (s : State) : View :=
  { checking := decide (s.status = .loading)
    anonPanel := decide (s.status = .anon)
    authed :=
      if s.status = .authed ∧ s.user.truthy = true then some (renderAuthed s) else none
    errorPanel := if s.status = .error then some s.error else none }

/-- Repository `<li>` items present in a view. -/
def View.repoItems (v : View) : List RepoItem :=
  match v.authed with
  | some a => a.repoList.getD []
  | none => []

/-- Repository error paragraph present in a view. -/
def View.repoErrorText (v : View) : Option String :=
  match v.authed with
  | some a => a.repoErrorText
  | none => none

/-- Whether the "No repositories found" paragraph is present in a view. -/
def View.emptyMessage (v : View) : Bool :=
  match v.authed with
  | some a => a.emptyMessage
  | none => false

/-- The load-repositories button of a view, when it is on screen. -/
def View.loadButton (v : View) : Option LoadButton :=
  v.authed.map AuthedView.loadButton

/-- A click on the load-repositories button reaches `handleLoadRepos`: the
button is on screen and not disabled. -/
def loadClickable (s : State) : Bool :=
  match (render s).loadButton with
  | some b => !b.disabled
  | none => false

/-- A click on the sign-out button reaches `handleLogout`: the button is on
screen. -/
def logoutClickable (s : State) : Bool :=
  (render s).authed.isSome

/-! ## Event loop -/

/-- The mounted component together with its outstanding requests. -/
structure Sys where
  state : State
  /-- The `/api/github/me` request issued by the mount effect is in flight. -/
  sessionPending : Bool
  /-- Number of `/api/github/repos` requests in flight. -/
  repoPending : Nat
  /-- Number of `/api/logout` requests in flight. -/
  logoutPending : Nat

/-- The component right after mounting: initial cells, and the effect has
called `loadUser` once. -/
def init : Sys :=
  { state := initialState, sessionPending := true, repoPending := 0, logoutPending := 0 }

/-- What the single-threaded event loop can deliver to the component. -/
inductive Event where
  | sessionDone (o : FetchOutcome Json)
  | clickLoad
  | repoDone (o : FetchOutcome (List Repo))
  | clickLogout
  | logoutDone (o : FetchOutcome Json)

/-- One turn of the event loop. A completion is delivered only for a request
that is in flight, a click only to a control that is on screen and enabled;
anything else leaves the system as it is. -/
def step (x : Sys) : Event → Sys
  | .sessionDone o =>
    if x.sessionPending then
      { x with state := loadUser true o x.state, sessionPending := false }
    else x
  | .clickLoad =>
    if loadClickable x.state then
      { x with state := handleLoadReposBegin x.state, repoPending := x.repoPending + 1 }
    else x
  | .repoDone o =>
    if 0 < x.repoPending then
      { x with state := handleLoadReposSettle o x.state, repoPending := x.repoPending - 1 }
    else x
  | .clickLogout =>
    if logoutClickable x.state then
      { x with logoutPending := x.logoutPending + 1 }
    else x
  | .logoutDone o =>
    if 0 < x.logoutPending then
      { x with state := handleLogout o x.state, logoutPending := x.logoutPending - 1 }
    else x

/-- The system after a sequence of events, starting from a given system. -/
def runFrom (x : Sys) (es : List Event) : Sys :=
  es.foldl step x

/-- The system reached from the freshly mounted component by a sequence of
events. -/
def run (es : List Event) : Sys :=
  runFrom init es

/-! ## Event classes used by the statements below -/

/-- A session outcome that `loadUser` turns into the `error` status: the fetch
rejected, or the status is neither 401 nor in 200-299, or the status is in
200-299 and the body failed to parse. -/
def sessionFails : FetchOutcome Json → Bool
  | .rejected _ => true
  | .response status body =>
    status != 401 && (!responseOk status || match body with
      | .error _ => true
      | .ok _ => false)

/-- A repository outcome that is a failure: the fetch rejected, the status is
outside 200-299, or the body failed to parse. -/
def repoFails : FetchOutcome (List Repo) → Bool
  | .rejected _ => true
  | .response status body =>
    !responseOk status || match body with
      | .error _ => true
      | .ok _ => false

/-- The event completes the session request with a 200-299 response whose body
parsed to JSON `null`. -/
def Event.deliversNullUser : Event → Bool
  | .sessionDone (.response status (.ok .null)) => responseOk status
  | _ => false

/-- The event completes a repository request successfully. -/
def Event.deliversRepos : Event → Bool
  | .repoDone o => !repoFails o
  | _ => false

/-- The event is one of the two that write the `repos` cell: a successful
repository completion (`setRepos(data)`) or a logout request that got a
response (`setRepos([])`). -/
def Event.writesRepos : Event → Bool
  | .repoDone o => !repoFails o
  | .logoutDone (.response _ _) => true
  | _ => false

/-- No event of the sequence writes the `repos` cell. -/
def neverWritesRepos (es : List Event) : Bool :=
  es.all fun e => !e.writesRepos

/-- No event of the sequence completes the session request with a 200-299
response whose body parsed to JSON `null`. -/
def neverDeliversNullUser (es : List Event) : Bool :=
  es.all fun e => !e.deliversNullUser

/-- No event of the sequence completes a repository request successfully. -/
def neverDeliversRepos (es : List Event) : Bool :=
  es.all fun e => !e.deliversRepos

/-! ## Sample data -/

/-- A sample user object: no `name`, no `email`. -/
def ada : Json :=
  .obj [("id", .num 1), ("login", .str "ada"), ("avatar_url", .str "u")]

/-- A sample repository record. -/
def demoRepo : Repo :=
  { id := 7, full_name := "ada/engine", html_url := "https://github.com/ada/engine",
    private_ := false }

/-- The cells of a signed-in session with one repository listed. -/
def signedInWithRepos : State :=
  { user := ada, status := .authed, error := "", repos := [demoRepo],
    repoStatus := .ready, repoError := "" }

/-- The cells while the first repository fetch of a signed-in session is in
flight. -/
def signedInLoading : State :=
  { user := ada, status := .authed, error := "", repos := [],
    repoStatus := .loading, repoError := "" }

/-- Cells with a signed-out session next to left-over repository data. -/
def signedOutWithRepos : State :=
  { user := .null, status := .anon, error := "", repos := [demoRepo],
    repoStatus := .error, repoError := "Failed to load repositories" }

/-! ## Invariants of the event loop -/

/-- Facts that hold of the component and its outstanding requests after every
turn of the event loop. -/
structure Inv (x : Sys) : Prop where
  fresh : x.sessionPending = true →
    x.state.status = .loading ∧ x.state.user = .null ∧ x.repoPending = 0 ∧
      x.logoutPending = 0 ∧ x.state.repoStatus = .idle
  quiet : x.state.status = .loading ∨ x.state.status = .error →
    x.repoPending = 0 ∧ x.state.repoStatus = .idle
  single : x.repoPending ≤ 1
  inflight : x.state.status = .authed → x.repoPending = 1 → x.state.repoStatus = .loading
  userAuthed : x.state.user ≠ .null → x.state.status = .authed
  idleEmpty : x.state.repoStatus = .idle → x.state.repos = []
  loadingAuthed : x.state.repoStatus = .loading →
    x.state.status = .authed ∧ x.state.user.truthy = true

theorem inv_init : Inv init := by
  constructor <;> simp [init, initialState]

theorem loadUser_cases (o : FetchOutcome Json) (s : State) :
    (loadUser true o s = { s with status := .anon }) ∨
    (∃ m, loadUser true o s = { s with error := m, status := .error }) ∨
    (∃ d, loadUser true o s = { s with user := d, status := .authed }) := by
  cases o with
  | rejected m => right; left; exact ⟨_, rfl⟩
  | response st body =>
    unfold loadUser
    by_cases h1 : st = 401
    · left; simp [h1]
    · by_cases h2 : responseOk st = true
      · cases body with
        | error m => right; left; exact ⟨messageOr m "Something went wrong", by simp [h1, h2, loadUserCatch]⟩
        | ok d => right; right; exact ⟨d, by simp [h1, h2]⟩
      · right; left
        exact ⟨messageOr "Failed to load user" "Something went wrong", by simp [h1, h2, loadUserCatch]⟩

theorem handleLoadReposSettle_cases (o : FetchOutcome (List Repo)) (s : State) :
    (∃ m, handleLoadReposSettle o s = { s with repoError := m, repoStatus := .error }) ∨
    (∃ d, handleLoadReposSettle o s = { s with repos := d, repoStatus := .ready }) := by
  cases o with
  | rejected m => left; exact ⟨_, rfl⟩
  | response st body =>
    unfold handleLoadReposSettle
    by_cases h2 : responseOk st = true
    · cases body with
      | error m =>
        left
        exact ⟨messageOr m "Unable to load repositories", by simp [h2, handleLoadReposCatch]⟩
      | ok d => right; exact ⟨d, by simp [h2]⟩
    · left
      exact ⟨messageOr "Failed to load repositories" "Unable to load repositories",
        by simp [h2, handleLoadReposCatch]⟩

theorem loadClickable_iff (s : State) :
    loadClickable s = true ↔
      s.status = .authed ∧ s.user.truthy = true ∧ s.repoStatus ≠ .loading := by
  unfold loadClickable View.loadButton render
  by_cases h : s.status = .authed ∧ s.user.truthy = true
  · simp [h, renderAuthed]
  · simp only [h, if_false, Option.map_none']
    constructor
    · intro h'; cases h'
    · intro h'; exact absurd ⟨h'.1, h'.2.1⟩ h

theorem logoutClickable_iff (s : State) :
    logoutClickable s = true ↔ s.status = .authed ∧ s.user.truthy = true := by
  unfold logoutClickable render
  by_cases h : s.status = .authed ∧ s.user.truthy = true <;> simp [h]

theorem step_sessionDone (x : Sys) (o : FetchOutcome Json) :
    step x (.sessionDone o) =
      if x.sessionPending = true then
        { x with state := loadUser true o x.state, sessionPending := false }
      else x := rfl

theorem step_clickLoad (x : Sys) :
    step x .clickLoad =
      if loadClickable x.state = true then
        { x with state := handleLoadReposBegin x.state, repoPending := x.repoPending + 1 }
      else x := rfl

theorem step_repoDone (x : Sys) (o : FetchOutcome (List Repo)) :
    step x (.repoDone o) =
      if 0 < x.repoPending then
        { x with state := handleLoadReposSettle o x.state, repoPending := x.repoPending - 1 }
      else x := rfl

theorem step_clickLogout (x : Sys) :
    step x .clickLogout =
      if logoutClickable x.state = true then
        { x with logoutPending := x.logoutPending + 1 }
      else x := rfl

theorem step_logoutDone (x : Sys) (o : FetchOutcome Json) :
    step x (.logoutDone o) =
      if 0 < x.logoutPending then
        { x with state := handleLogout o x.state, logoutPending := x.logoutPending - 1 }
      else x := rfl

theorem inv_step (x : Sys) (e : Event) (h : Inv x) : Inv (step x e) := by
  obtain ⟨hf, hq, hs, hi, hu, he, hl⟩ := h
  cases e with
  | sessionDone o =>
    rw [step_sessionDone]
    by_cases hp : x.sessionPending = true
    · obtain ⟨h1, h2, h3, h4, h5⟩ := hf hp
      rw [if_pos hp]
      rcases loadUser_cases o x.state with hc | ⟨m, hc⟩ | ⟨d, hc⟩ <;>
        (rw [hc]; constructor <;> simp_all)
    · rw [if_neg hp]; exact ⟨hf, hq, hs, hi, hu, he, hl⟩
  | clickLoad =>
    rw [step_clickLoad]
    by_cases hc : loadClickable x.state = true
    · rw [if_pos hc]
      obtain ⟨c1, c2, c3⟩ := (loadClickable_iff x.state).1 hc
      have hp0 : x.repoPending = 0 := by
        have := hi c1
        by_contra h0
        exact c3 (this (by omega))
      constructor <;> simp_all [handleLoadReposBegin]
    · rw [if_neg hc]; exact ⟨hf, hq, hs, hi, hu, he, hl⟩
  | repoDone o =>
    rw [step_repoDone]
    by_cases hc : 0 < x.repoPending
    · rw [if_pos hc]
      have hp1 : x.repoPending = 1 := by omega
      have hsp : x.sessionPending = false := by
        cases hsp : x.sessionPending
        · rfl
        · have := (hf hsp).2.2.1; omega
      have hst : ¬ (x.state.status = .loading ∨ x.state.status = .error) := by
        intro h; have := (hq h).1; omega
      rcases handleLoadReposSettle_cases o x.state with ⟨m, hm⟩ | ⟨d, hd⟩
      · rw [hm]; constructor <;> simp_all
      · rw [hd]; constructor <;> simp_all
    · rw [if_neg hc]; exact ⟨hf, hq, hs, hi, hu, he, hl⟩
  | clickLogout =>
    rw [step_clickLogout]
    by_cases hc : logoutClickable x.state = true
    · rw [if_pos hc]
      obtain ⟨c1, _⟩ := (logoutClickable_iff x.state).1 hc
      constructor <;> simp_all
    · rw [if_neg hc]; exact ⟨hf, hq, hs, hi, hu, he, hl⟩
  | logoutDone o =>
    rw [step_logoutDone]
    by_cases hc : 0 < x.logoutPending
    · rw [if_pos hc]
      have hsp : x.sessionPending = false := by
        cases hsp : x.sessionPending
        · rfl
        · have := (hf hsp).2.2.2.1; omega
      cases o with
      | rejected m => constructor <;> simp_all [handleLogout]
      | response st b => constructor <;> simp_all [handleLogout]
    · rw [if_neg hc]; exact ⟨hf, hq, hs, hi, hu, he, hl⟩

/-- A property kept by every turn whose event is of a given class holds after
any sequence of such events. -/
theorem runFrom_preserves (P : Event → Prop) (I : Sys → Prop)
    (hstep : ∀ x e, P e → I x → I (step x e)) :
    ∀ (es : List Event) (x : Sys), I x → (∀ e ∈ es, P e) → I (runFrom x es) := by
  intro es
  induction es with
  | nil => intro x hx _; exact hx
  | cons e es ih =>
    intro x hx hall
    have h1 : P e := hall e (List.mem_cons_self e es)
    have h2 : ∀ e' ∈ es, P e' := fun e' he' => hall e' (List.mem_cons_of_mem e he')
    exact ih (step x e) (hstep x e h1 hx) h2

theorem inv_run (es : List Event) : Inv (run es) :=
  runFrom_preserves (fun _ => True) Inv (fun x e _ h => inv_step x e h) es init inv_init
    (fun _ _ => trivial)

/-- For any response to `POST /api/logout`, whatever its status or body,
`handleLogout` resets the session and repository cells. -/
theorem handleLogout_response_resets (st : Nat) (b : Except String Json) (s : State) :
    handleLogout (.response st b) s =
      { s with user := .null, status := .anon, repos := [], repoStatus := .idle,
               repoError := "" } := rfl

theorem messageOr_ne_empty (m d : String) (hd : d ≠ "") : messageOr m d ≠ "" := by
  unfold messageOr
  by_cases h : m = ""
  · rw [if_pos h]; exact hd
  · rw [if_neg h]; exact h

/-! ## Session fetch -/

/-- C2: for the session fetch run by `loadUser` while the component is mounted,
a 401 response only sets `status` to `anon` (from the initial cells, `user` is
still `null` and `error` still empty), and a 200 response whose body parses to
`d` sets `status` to `authed` and `user` to exactly `d`, touching nothing else. -/
theorem loadUser_mounted_401_and_200 :
    (∀ (body : Except String Json) (s : State),
        loadUser true (.response 401 body) s = { s with status := .anon }) ∧
    (∀ (body : Except String Json),
        (loadUser true (.response 401 body) initialState).status = .anon ∧
        (loadUser true (.response 401 body) initialState).user = .null ∧
        (loadUser true (.response 401 body) initialState).error = "") ∧
    (∀ (d : Json) (s : State),
        loadUser true (.response 200 (.ok d)) s = { s with user := d, status := .authed }) ∧
    (∀ (d : Json),
        (loadUser true (.response 200 (.ok d)) initialState).status = .authed ∧
        (loadUser true (.response 200 (.ok d)) initialState).user = d) := by
  refine ⟨fun _ _ => rfl, fun _ => ⟨rfl, rfl, rfl⟩, fun _ _ => rfl, fun _ => ⟨rfl, rfl⟩⟩

/-- C3, as stated, fails: status 201 is neither 200 nor 401, yet with a body
that parses `loadUser` ends in `authed`, not `error`. -/
theorem loadUser_201_is_authed :
    (201 ≠ 200 ∧ 201 ≠ 401) ∧
    (loadUser true (.response 201 (.ok ada)) initialState).status = .authed ∧
    (loadUser true (.response 201 (.ok ada)) initialState).status ≠ .error ∧
    (loadUser true (.response 201 (.ok ada)) initialState).user = ada := by
  refine ⟨⟨by decide, by decide⟩, rfl, ?_, rfl⟩
  show Status.authed ≠ Status.error
  decide

/-- C3, amended: for the session fetch run by `loadUser` while mounted, every
outcome that is a rejected fetch, a status outside 200-299 other than 401, or a
200-299 response whose body fails to parse, ends with `status = error`, a
non-empty `error` message, and `user` left as it was. -/
theorem loadUser_failure_sets_error (o : FetchOutcome Json) (s : State)
    (h : sessionFails o = true) :
    (loadUser true o s).status = .error ∧
    (loadUser true o s).error ≠ "" ∧
    (loadUser true o s).user = s.user := by
  have hd : ("Something went wrong" : String) ≠ "" := by decide
  cases o with
  | rejected m => exact ⟨rfl, messageOr_ne_empty m _ hd, rfl⟩
  | response st body =>
    unfold sessionFails at h
    have h401 : st ≠ 401 := by
      intro h'; subst h'; simp at h
    by_cases hok : responseOk st = true
    · cases body with
      | error m =>
        have e : loadUser true (.response st (.error m)) s = loadUserCatch true m s := by
          simp [loadUser, h401, hok]
        rw [e]; exact ⟨rfl, messageOr_ne_empty m _ hd, rfl⟩
      | ok d => simp [hok] at h
    · have e : loadUser true (.response st body) s =
          loadUserCatch true "Failed to load user" s := by
        simp [loadUser, h401, hok]
      rw [e]; exact ⟨rfl, messageOr_ne_empty "Failed to load user" _ hd, rfl⟩

/-- Instance of the amended C3 at a 500 response from the initial cells. -/
theorem loadUser_failure_sets_error_witness :
    sessionFails (.response 500 (.error "Unexpected token")) = true ∧
    (loadUser true (.response 500 (.error "Unexpected token")) initialState).status = .error ∧
    (loadUser true (.response 500 (.error "Unexpected token")) initialState).error ≠ "" ∧
    (loadUser true (.response 500 (.error "Unexpected token")) initialState).user =
      initialState.user :=
  ⟨by decide, loadUser_failure_sets_error (.response 500 (.error "Unexpected token"))
    initialState (by decide)⟩

/-- C9: when the effect's cleanup has run before the session request settles
(`active` is false), `loadUser` leaves every cell as it was, whatever the
outcome of the request. -/
theorem loadUser_after_teardown_is_identity (o : FetchOutcome Json) (s : State) :
    loadUser false o s = s := by
  cases o with
  | rejected m => rfl
  | response st body =>
    unfold loadUser
    by_cases h1 : st = 401
    · simp [h1]
    · by_cases h2 : responseOk st = true
      · cases body <;> simp [h1, h2, loadUserCatch]
      · simp [h1, h2, loadUserCatch]

/-! ## Logout -/

/-- C4 fails when the logout request is rejected: from a signed-in session with
a loaded list, a sign-out click whose `fetch` rejects leaves every cell as it
was (still `authed`, user and list still present); `handleLogout` on a rejected
fetch is the identity on any cells. -/
theorem handleLogout_rejected_fetch_keeps_session :
    (run [.sessionDone (.response 200 (.ok ada)), .clickLoad,
          .repoDone (.response 200 (.ok [demoRepo])), .clickLogout]).state
      = signedInWithRepos ∧
    (run [.sessionDone (.response 200 (.ok ada)), .clickLoad,
          .repoDone (.response 200 (.ok [demoRepo])), .clickLogout,
          .logoutDone (.rejected "Failed to fetch")]).state = signedInWithRepos ∧
    signedInWithRepos.status = .authed ∧
    signedInWithRepos.status ≠ .anon ∧
    signedInWithRepos.repos ≠ [] ∧
    (∀ (m : String) (s : State), handleLogout (.rejected m) s = s) := by
  refine ⟨rfl, rfl, rfl, ?_, ?_, fun _ _ => rfl⟩
  · show Status.authed ≠ Status.anon
    decide
  · show [demoRepo] ≠ []
    exact List.cons_ne_nil _ _

/-! ## Repository panel and session -/

/-- C1 fails on a stale repository response: a repository fetch started before
a sign-out and completed after the sign-out has reset the cells leaves
`repoStatus = ready` (with the fetched list stored) while `status = anon`. -/
theorem stale_repo_response_after_logout :
    (run [.sessionDone (.response 200 (.ok ada)), .clickLoad, .clickLogout,
          .logoutDone (.response 200 (.ok .null))]).state.repoStatus = .idle ∧
    (run [.sessionDone (.response 200 (.ok ada)), .clickLoad, .clickLogout,
          .logoutDone (.response 200 (.ok .null)),
          .repoDone (.response 200 (.ok [demoRepo]))]).state.status = .anon ∧
    (run [.sessionDone (.response 200 (.ok ada)), .clickLoad, .clickLogout,
          .logoutDone (.response 200 (.ok .null)),
          .repoDone (.response 200 (.ok [demoRepo]))]).state.repoStatus = .ready ∧
    (run [.sessionDone (.response 200 (.ok ada)), .clickLoad, .clickLogout,
          .logoutDone (.response 200 (.ok .null)),
          .repoDone (.response 200 (.ok [demoRepo]))]).state.repos = [demoRepo] ∧
    (run [.sessionDone (.response 200 (.ok ada)), .clickLoad, .clickLogout,
          .logoutDone (.response 200 (.ok .null)),
          .repoDone (.response 500 (.error ""))]).state.repoStatus = .error := by
  refine ⟨rfl, rfl, rfl, rfl, rfl⟩

/-- In every reachable state a repository status other than `idle` occurs only
once the session has been `authed`: the status is then `authed`, or `anon`
after a sign-out. -/
theorem repo_active_session_past_loading (es : List Event)
    (h : (run es).state.repoStatus ≠ .idle) :
    (run es).state.status = .authed ∨ (run es).state.status = .anon := by
  have hq := (inv_run es).quiet
  cases hst : (run es).state.status with
  | loading => exact absurd (hq (Or.inl hst)).2 h
  | error => exact absurd (hq (Or.inr hst)).2 h
  | authed => exact Or.inl rfl
  | anon => exact Or.inr rfl

theorem handleLoadReposSettle_fail (o : FetchOutcome (List Repo)) (s : State)
    (h : repoFails o = true) :
    ∃ m, handleLoadReposSettle o s =
      { s with repoError := messageOr m "Unable to load repositories", repoStatus := .error } := by
  cases o with
  | rejected m => exact ⟨m, rfl⟩
  | response st body =>
    unfold repoFails at h
    by_cases hok : responseOk st = true
    · cases body with
      | error m => exact ⟨m, by simp [handleLoadReposSettle, hok, handleLoadReposCatch]⟩
      | ok d => simp [hok] at h
    · exact ⟨"Failed to load repositories",
        by simp [handleLoadReposSettle, hok, handleLoadReposCatch]⟩

/-- A click on an enabled load button followed by the completion of its request
is `handleLoadRepos` run on the cells. -/
theorem step_load_then_done (x : Sys) (o : FetchOutcome (List Repo))
    (h : loadClickable x.state = true) :
    (step (step x .clickLoad) (.repoDone o)).state = handleLoadRepos o x.state := by
  rw [step_clickLoad, if_pos h, step_repoDone]
  simp [handleLoadRepos]

/-- C5: in any state with `repoStatus = loading` a click on the load control
changes no cell and issues no request; whenever the control is on screen it is
disabled exactly when `repoStatus = loading`; in every reachable state
`repoStatus = loading` holds exactly when the control is on screen and
disabled; and in every reachable state at most one repository request is in
flight. -/
theorem load_while_loading_is_noop :
    (∀ x : Sys, x.state.repoStatus = .loading → step x .clickLoad = x) ∧
    (∀ (s : State) (b : LoadButton), (render s).loadButton = some b →
        (b.disabled = true ↔ s.repoStatus = .loading)) ∧
    (∀ es : List Event, (run es).state.repoStatus = .loading ↔
        ∃ b, (render (run es).state).loadButton = some b ∧ b.disabled = true) ∧
    (∀ es : List Event, (run es).repoPending ≤ 1) := by
  have hbtn : ∀ (s : State) (b : LoadButton), (render s).loadButton = some b →
      (b.disabled = true ↔ s.repoStatus = .loading) := by
    intro s b hb
    unfold View.loadButton render at hb
    by_cases h : s.status = .authed ∧ s.user.truthy = true
    · simp only [h, and_self, if_true, Option.map_some', Option.some.injEq] at hb
      subst hb
      simp [renderAuthed]
    · simp [h] at hb
  refine ⟨?_, hbtn, ?_, fun es => (inv_run es).single⟩
  · intro x hx
    have hc : ¬ loadClickable x.state = true := by
      intro hc
      exact ((loadClickable_iff x.state).1 hc).2.2 hx
    rw [step_clickLoad, if_neg hc]
  · intro es
    constructor
    · intro hl
      obtain ⟨h1, h2⟩ := (inv_run es).loadingAuthed hl
      exact ⟨⟨true, "Loading..."⟩,
        by simp [View.loadButton, render, renderAuthed, h1, h2, hl], rfl⟩
    · rintro ⟨b, hb, hd⟩
      exact (hbtn _ b hb).1 hd

/-- Instance of C5 at the state in which the first repository fetch of a
signed-in session is in flight. -/
theorem load_while_loading_is_noop_witness :
    (run [.sessionDone (.response 200 (.ok ada)), .clickLoad]).state.repoStatus = .loading ∧
    step (run [.sessionDone (.response 200 (.ok ada)), .clickLoad]) .clickLoad
      = run [.sessionDone (.response 200 (.ok ada)), .clickLoad] ∧
    (render signedInLoading).loadButton = some ⟨true, "Loading..."⟩ ∧
    ((⟨true, "Loading..."⟩ : LoadButton).disabled = true ↔
      signedInLoading.repoStatus = .loading) :=
  ⟨rfl, load_while_loading_is_noop.1 _ rfl, rfl, load_while_loading_is_noop.2.1 _ _ rfl⟩

/-- C6: from cells with `status = authed`, a Load action whose repository fetch
fails (rejected fetch, status outside 200-299, or unparsable body) ends with
`repoStatus = error` and a non-empty `repoError`, leaves `status` and `user` as
they were, and, the load control having been on screen for the action, renders
it enabled. -/
theorem load_failure_keeps_session_and_retry (s : State) (o : FetchOutcome (List Repo))
    (hs : s.status = .authed) (ho : repoFails o = true) :
    (handleLoadRepos o s).repoStatus = .error ∧
    (handleLoadRepos o s).repoError ≠ "" ∧
    (handleLoadRepos o s).status = .authed ∧
    (handleLoadRepos o s).status = s.status ∧
    (handleLoadRepos o s).user = s.user ∧
    ((render s).loadButton ≠ none →
      (render (handleLoadRepos o s)).loadButton = some ⟨false, "Load repositories"⟩ ∧
      loadClickable (handleLoadRepos o s) = true) := by
  obtain ⟨m, hm⟩ := handleLoadReposSettle_fail o (handleLoadReposBegin s) ho
  have hd : ("Unable to load repositories" : String) ≠ "" := by decide
  unfold handleLoadRepos
  rw [hm]
  refine ⟨rfl, messageOr_ne_empty m _ hd, hs, rfl, rfl, ?_⟩
  intro hb
  have ht : s.user.truthy = true := by
    by_contra ht
    apply hb
    simp [View.loadButton, render, ht]
  constructor
  · simp [View.loadButton, render, renderAuthed, handleLoadReposBegin, hs, ht]
  · rw [loadClickable_iff]
    simp [handleLoadReposBegin, hs, ht]

/-- Instance of C6 at a signed-in session with a loaded list and a 500 response. -/
theorem load_failure_keeps_session_and_retry_witness :
    signedInWithRepos.status = .authed ∧
    repoFails (.response 500 (.error "Unexpected token")) = true ∧
    (render signedInWithRepos).loadButton ≠ none ∧
    (handleLoadRepos (.response 500 (.error "Unexpected token")) signedInWithRepos).repoStatus
      = .error ∧
    (render (handleLoadRepos (.response 500 (.error "Unexpected token"))
      signedInWithRepos)).loadButton = some ⟨false, "Load repositories"⟩ :=
  have h := load_failure_keeps_session_and_retry signedInWithRepos
    (.response 500 (.error "Unexpected token")) rfl (by decide)
  have hb : (render signedInWithRepos).loadButton ≠ none := by
    simp [View.loadButton, render, signedInWithRepos, ada, Json.truthy]
  ⟨rfl, by decide, hb, h.1, (h.2.2.2.2.2 hb).1⟩

/-- C10: for cells with `status` other than `authed`, whatever the repository
cells hold, the view has no `authed` block, hence no repository list item, no
repository error text and no empty-list message. -/
theorem render_hides_repos_unless_authed (s : State) (h : s.status ≠ .authed) :
    (render s).authed = none ∧
    (render s).repoItems = [] ∧
    (render s).repoErrorText = none ∧
    (render s).emptyMessage = false ∧
    (render s).loadButton = none := by
  have ha : (render s).authed = none := by simp [render, h]
  simp [View.repoItems, View.repoErrorText, View.emptyMessage, View.loadButton, ha]

/-- Instance of C10 at signed-out cells that still hold a repository list and a
repository error. -/
theorem render_hides_repos_unless_authed_witness :
    signedOutWithRepos.status ≠ .authed ∧
    signedOutWithRepos.repos ≠ [] ∧
    (render signedOutWithRepos).authed = none ∧
    (render signedOutWithRepos).repoItems = [] ∧
    (render signedOutWithRepos).repoErrorText = none ∧
    (render signedOutWithRepos).emptyMessage = false ∧
    (render signedOutWithRepos).loadButton = none :=
  ⟨by decide, List.cons_ne_nil _ _,
    render_hides_repos_unless_authed signedOutWithRepos (by decide)⟩

/-! ## Repository list and user presence -/

theorem handleLogout_cases (o : FetchOutcome Json) (s : State) :
    handleLogout o s = s ∨
    handleLogout o s =
      { s with user := .null, status := .anon, repos := [], repoStatus := .idle,
               repoError := "" } := by
  cases o with
  | rejected m => exact Or.inl rfl
  | response st b => exact Or.inr rfl

/-- Any turn other than a successful repository completion keeps an empty
list empty. -/
theorem step_keeps_repos_empty (x : Sys) (e : Event) (he : e.deliversRepos = false)
    (h : x.state.repos = []) : (step x e).state.repos = [] := by
  cases e with
  | sessionDone o =>
    rw [step_sessionDone]
    by_cases hp : x.sessionPending = true
    · rw [if_pos hp]
      rcases loadUser_cases o x.state with hc | ⟨m, hc⟩ | ⟨d, hc⟩ <;> simp [hc, h]
    · rw [if_neg hp]; exact h
  | clickLoad =>
    rw [step_clickLoad]
    by_cases hc : loadClickable x.state = true
    · rw [if_pos hc]; exact h
    · rw [if_neg hc]; exact h
  | repoDone o =>
    rw [step_repoDone]
    by_cases hc : 0 < x.repoPending
    · rw [if_pos hc]
      have hf : repoFails o = true := by
        simpa [Event.deliversRepos] using he
      obtain ⟨m, hm⟩ := handleLoadReposSettle_fail o x.state hf
      simp [hm, h]
    · rw [if_neg hc]; exact h
  | clickLogout =>
    rw [step_clickLogout]
    by_cases hc : logoutClickable x.state = true
    · rw [if_pos hc]; exact h
    · rw [if_neg hc]; exact h
  | logoutDone o =>
    rw [step_logoutDone]
    by_cases hc : 0 < x.logoutPending
    · rw [if_pos hc]
      rcases handleLogout_cases o x.state with hl | hl <;> simp [hl, h]
    · rw [if_neg hc]; exact h

/-- C7, as stated, fails: after a successful load of a non-empty list, a second
Load action re-enters `loading` with the earlier list still stored, and a
failure of that second fetch ends in `error` with the list still stored. -/
theorem reload_retains_earlier_list :
    (run [.sessionDone (.response 200 (.ok ada)), .clickLoad,
          .repoDone (.response 200 (.ok [demoRepo])), .clickLoad]).state.repoStatus
      = .loading ∧
    (run [.sessionDone (.response 200 (.ok ada)), .clickLoad,
          .repoDone (.response 200 (.ok [demoRepo])), .clickLoad]).state.repos
      = [demoRepo] ∧
    (run [.sessionDone (.response 200 (.ok ada)), .clickLoad,
          .repoDone (.response 200 (.ok [demoRepo])), .clickLoad,
          .repoDone (.response 500 (.error ""))]).state.repoStatus = .error ∧
    (run [.sessionDone (.response 200 (.ok ada)), .clickLoad,
          .repoDone (.response 200 (.ok [demoRepo])), .clickLoad,
          .repoDone (.response 500 (.error ""))]).state.repos = [demoRepo] ∧
    [demoRepo] ≠ [] := by
  refine ⟨rfl, rfl, rfl, rfl, List.cons_ne_nil _ _⟩

/-- Any turn other than a successful repository completion or an answered
logout leaves the stored list as it is: a Load click, a failed repository
completion, a session completion, a sign-out click and a rejected logout all
keep `repos`. -/
theorem step_keeps_repos (x : Sys) (e : Event) (he : e.writesRepos = false) :
    (step x e).state.repos = x.state.repos := by
  cases e with
  | sessionDone o =>
    rw [step_sessionDone]
    by_cases hp : x.sessionPending = true
    · rw [if_pos hp]
      rcases loadUser_cases o x.state with hc | ⟨m, hc⟩ | ⟨d, hc⟩ <;> simp [hc]
    · rw [if_neg hp]
  | clickLoad =>
    rw [step_clickLoad]
    by_cases hc : loadClickable x.state = true
    · rw [if_pos hc]; rfl
    · rw [if_neg hc]
  | repoDone o =>
    rw [step_repoDone]
    by_cases hc : 0 < x.repoPending
    · rw [if_pos hc]
      have hf : repoFails o = true := by
        simpa [Event.writesRepos] using he
      obtain ⟨m, hm⟩ := handleLoadReposSettle_fail o x.state hf
      simp [hm]
    · rw [if_neg hc]
  | clickLogout =>
    rw [step_clickLogout]
    by_cases hc : logoutClickable x.state = true
    · rw [if_pos hc]
    · rw [if_neg hc]
  | logoutDone o =>
    rw [step_logoutDone]
    by_cases hc : 0 < x.logoutPending
    · rw [if_pos hc]
      cases o with
      | rejected m => rfl
      | response st b => simp [Event.writesRepos] at he
    · rw [if_neg hc]

/-- C7, amended: in every reachable state the list is empty whenever
`repoStatus = idle` (so a non-empty list implies `loading`, `ready` or
`error`); the list is also empty, whatever the status, as long as no repository
fetch has succeeded; a successful completion stores exactly the fetched list
with `repoStatus = ready`. A stored list is kept by every later sequence of
events that holds neither a successful repository completion nor an answered
logout: in particular a later Load click enters `loading` with the list kept,
and a later failed completion ends in `error` with the list kept. -/
theorem repos_empty_when_idle_or_never_loaded (es : List Event) :
    ((run es).state.repoStatus = .idle → (run es).state.repos = []) ∧
    ((run es).state.repos ≠ [] → (run es).state.repoStatus ≠ .idle) ∧
    (neverDeliversRepos es = true → (run es).state.repos = []) ∧
    (∀ (st : Nat) (d : List Repo), responseOk st = true → 0 < (run es).repoPending →
      (step (run es) (.repoDone (.response st (.ok d)))).state.repos = d ∧
      (step (run es) (.repoDone (.response st (.ok d)))).state.repoStatus = .ready) ∧
    (∀ more : List Event, neverWritesRepos more = true →
      (runFrom (run es) more).state.repos = (run es).state.repos) ∧
    (loadClickable (run es).state = true →
      (step (run es) .clickLoad).state.repoStatus = .loading ∧
      (step (run es) .clickLoad).state.repos = (run es).state.repos) ∧
    (∀ o : FetchOutcome (List Repo), repoFails o = true → 0 < (run es).repoPending →
      (step (run es) (.repoDone o)).state.repoStatus = .error ∧
      (step (run es) (.repoDone o)).state.repos = (run es).state.repos) := by
  have hi := (inv_run es).idleEmpty
  refine ⟨hi, fun hne hidle => hne (hi hidle), ?_, ?_, ?_, ?_, ?_⟩
  · intro hall
    have hall' : ∀ e ∈ es, e.deliversRepos = false := by
      simpa [neverDeliversRepos] using hall
    exact runFrom_preserves (fun e => e.deliversRepos = false)
      (fun x => x.state.repos = []) step_keeps_repos_empty es init rfl hall'
  · intro st d hok hp
    rw [step_repoDone, if_pos hp]
    simp [handleLoadReposSettle, hok]
  · intro more hall
    have hall' : ∀ e ∈ more, e.writesRepos = false := by
      simpa [neverWritesRepos] using hall
    exact runFrom_preserves (fun e => e.writesRepos = false)
      (fun y => y.state.repos = (run es).state.repos)
      (fun y e he hy => (step_keeps_repos y e he).trans hy) more (run es) rfl hall'
  · intro hc
    rw [step_clickLoad, if_pos hc]
    exact ⟨rfl, rfl⟩
  · intro o hf hp
    obtain ⟨m, hm⟩ := handleLoadReposSettle_fail o (run es).state hf
    rw [step_repoDone, if_pos hp]
    simp [hm]

/-- Instances of the amended C7: a first load that fails (list empty in
`error`), the freshly mounted component (list empty in `idle`), a first load in
flight that then succeeds (list stored, `ready`, not `idle`), and, after that
success, a second Load click (`loading`, list kept) whose fetch then fails
(`error`, list kept). -/
theorem repos_empty_when_idle_or_never_loaded_witness :
    (neverDeliversRepos [.sessionDone (.response 200 (.ok ada)), .clickLoad,
        .repoDone (.response 500 (.error ""))] = true ∧
      (run [.sessionDone (.response 200 (.ok ada)), .clickLoad,
        .repoDone (.response 500 (.error ""))]).state.repoStatus = .error ∧
      (run [.sessionDone (.response 200 (.ok ada)), .clickLoad,
        .repoDone (.response 500 (.error ""))]).state.repos = []) ∧
    ((run []).state.repoStatus = .idle ∧ (run []).state.repos = []) ∧
    (responseOk 200 = true ∧
      0 < (run [.sessionDone (.response 200 (.ok ada)), .clickLoad]).repoPending ∧
      (step (run [.sessionDone (.response 200 (.ok ada)), .clickLoad])
        (.repoDone (.response 200 (.ok [demoRepo])))).state.repos = [demoRepo] ∧
      (step (run [.sessionDone (.response 200 (.ok ada)), .clickLoad])
        (.repoDone (.response 200 (.ok [demoRepo])))).state.repoStatus = .ready) ∧
    ((run [.sessionDone (.response 200 (.ok ada)), .clickLoad,
        .repoDone (.response 200 (.ok [demoRepo]))]).state.repos ≠ [] ∧
      (run [.sessionDone (.response 200 (.ok ada)), .clickLoad,
        .repoDone (.response 200 (.ok [demoRepo]))]).state.repoStatus ≠ .idle) ∧
    (neverWritesRepos [.clickLoad, .repoDone (.response 500 (.error "")), .clickLogout,
        .logoutDone (.rejected "Failed to fetch")] = true ∧
      (run [.sessionDone (.response 200 (.ok ada)), .clickLoad,
        .repoDone (.response 200 (.ok [demoRepo]))]).state.repos = [demoRepo] ∧
      (runFrom (run [.sessionDone (.response 200 (.ok ada)), .clickLoad,
          .repoDone (.response 200 (.ok [demoRepo]))])
        [.clickLoad, .repoDone (.response 500 (.error "")), .clickLogout,
          .logoutDone (.rejected "Failed to fetch")]).state.repos
        = (run [.sessionDone (.response 200 (.ok ada)), .clickLoad,
          .repoDone (.response 200 (.ok [demoRepo]))]).state.repos) ∧
    (loadClickable (run [.sessionDone (.response 200 (.ok ada)), .clickLoad,
        .repoDone (.response 200 (.ok [demoRepo]))]).state = true ∧
      (step (run [.sessionDone (.response 200 (.ok ada)), .clickLoad,
        .repoDone (.response 200 (.ok [demoRepo]))]) .clickLoad).state.repoStatus
        = .loading ∧
      (step (run [.sessionDone (.response 200 (.ok ada)), .clickLoad,
        .repoDone (.response 200 (.ok [demoRepo]))]) .clickLoad).state.repos
        = (run [.sessionDone (.response 200 (.ok ada)), .clickLoad,
          .repoDone (.response 200 (.ok [demoRepo]))]).state.repos) ∧
    (repoFails (.response 500 (.error "")) = true ∧
      0 < (run [.sessionDone (.response 200 (.ok ada)), .clickLoad,
        .repoDone (.response 200 (.ok [demoRepo])), .clickLoad]).repoPending ∧
      (step (run [.sessionDone (.response 200 (.ok ada)), .clickLoad,
        .repoDone (.response 200 (.ok [demoRepo])), .clickLoad])
        (.repoDone (.response 500 (.error "")))).state.repoStatus = .error ∧
      (step (run [.sessionDone (.response 200 (.ok ada)), .clickLoad,
        .repoDone (.response 200 (.ok [demoRepo])), .clickLoad])
        (.repoDone (.response 500 (.error "")))).state.repos
        = (run [.sessionDone (.response 200 (.ok ada)), .clickLoad,
          .repoDone (.response 200 (.ok [demoRepo])), .clickLoad]).state.repos) :=
  ⟨⟨rfl, rfl, (repos_empty_when_idle_or_never_loaded _).2.2.1 rfl⟩,
    ⟨rfl, (repos_empty_when_idle_or_never_loaded []).1 rfl⟩,
    ⟨rfl, Nat.one_pos,
      (repos_empty_when_idle_or_never_loaded _).2.2.2.1 200 [demoRepo] rfl Nat.one_pos⟩,
    ⟨List.cons_ne_nil _ _,
      (repos_empty_when_idle_or_never_loaded _).2.1 (List.cons_ne_nil _ _)⟩,
    ⟨rfl, rfl, (repos_empty_when_idle_or_never_loaded _).2.2.2.2.1 _ rfl⟩,
    ⟨rfl, (repos_empty_when_idle_or_never_loaded _).2.2.2.2.2.1 rfl⟩,
    ⟨rfl, Nat.one_pos,
      (repos_empty_when_idle_or_never_loaded _).2.2.2.2.2.2 _ rfl Nat.one_pos⟩⟩

/-- The only way `loadUser` reaches `authed` is a 200-299 response whose body
parsed; the parsed value is what it stores in `user`. -/
theorem loadUser_authed_source (o : FetchOutcome Json) (s : State)
    (h : (loadUser true o s).status = .authed) :
    ∃ st d, o = .response st (.ok d) ∧ responseOk st = true ∧
      (loadUser true o s).user = d := by
  cases o with
  | rejected m => simp [loadUser, loadUserCatch] at h
  | response st body =>
    by_cases h1 : st = 401
    · simp [loadUser, h1] at h
    · by_cases h2 : responseOk st = true
      · cases body with
        | error m => simp [loadUser, h1, h2, loadUserCatch] at h
        | ok d => exact ⟨st, d, rfl, h2, by simp [loadUser, h1, h2]⟩
      · simp [loadUser, h1, h2, loadUserCatch] at h

/-- Any turn other than a session completion carrying a JSON `null` body keeps
the user present while the session is `authed`. -/
theorem step_keeps_user_present (x : Sys) (e : Event) (he : e.deliversNullUser = false)
    (h : Inv x ∧ (x.state.status = .authed → x.state.user ≠ .null)) :
    Inv (step x e) ∧ ((step x e).state.status = .authed → (step x e).state.user ≠ .null) := by
  refine ⟨inv_step x e h.1, ?_⟩
  obtain ⟨hinv, hu⟩ := h
  cases e with
  | sessionDone o =>
    rw [step_sessionDone]
    by_cases hp : x.sessionPending = true
    · rw [if_pos hp]
      intro ha
      obtain ⟨st, d, ho, hok, hd⟩ := loadUser_authed_source o x.state ha
      show (loadUser true o x.state).user ≠ .null
      rw [hd]
      intro hnull
      subst hnull
      subst ho
      simp [Event.deliversNullUser, hok] at he
    · rw [if_neg hp]; exact hu
  | clickLoad =>
    rw [step_clickLoad]
    by_cases hc : loadClickable x.state = true
    · rw [if_pos hc]; exact hu
    · rw [if_neg hc]; exact hu
  | repoDone o =>
    rw [step_repoDone]
    by_cases hc : 0 < x.repoPending
    · rw [if_pos hc]
      rcases handleLoadReposSettle_cases o x.state with ⟨m, hm⟩ | ⟨d, hd⟩
      · simpa [hm] using hu
      · simpa [hd] using hu
    · rw [if_neg hc]; exact hu
  | clickLogout =>
    rw [step_clickLogout]
    by_cases hc : logoutClickable x.state = true
    · rw [if_pos hc]; exact hu
    · rw [if_neg hc]; exact hu
  | logoutDone o =>
    rw [step_logoutDone]
    by_cases hc : 0 < x.logoutPending
    · rw [if_pos hc]
      rcases handleLogout_cases o x.state with hl | hl
      · simpa [hl] using hu
      · simp [hl]
    · rw [if_neg hc]; exact hu

/-- C8, as stated, fails: a 200 session response whose body is JSON `null`
leaves `status = authed` with `user` still `null`. -/
theorem null_body_authed_without_user :
    (run [.sessionDone (.response 200 (.ok .null))]).state.status = .authed ∧
    (run [.sessionDone (.response 200 (.ok .null))]).state.user = .null := by
  exact ⟨rfl, rfl⟩

/-- C8, amended: in every reachable state a non-null `user` implies
`status = authed`; and `status = authed` implies a non-null `user` provided no
200-299 session response carried a JSON `null` body. -/
theorem user_present_iff_authed_unless_null_body (es : List Event) :
    ((run es).state.user ≠ .null → (run es).state.status = .authed) ∧
    (neverDeliversNullUser es = true →
      ((run es).state.user ≠ .null ↔ (run es).state.status = .authed)) := by
  have hu := (inv_run es).userAuthed
  refine ⟨hu, fun hall => ⟨hu, ?_⟩⟩
  have hall' : ∀ e ∈ es, e.deliversNullUser = false := by
    simpa [neverDeliversNullUser] using hall
  have h0 : Inv init ∧ (init.state.status = .authed → init.state.user ≠ .null) := by
    refine ⟨inv_init, ?_⟩
    intro h
    simp [init, initialState] at h
  exact (runFrom_preserves (fun e => e.deliversNullUser = false)
    (fun x => Inv x ∧ (x.state.status = .authed → x.state.user ≠ .null))
    step_keeps_user_present es init h0 hall').2

/-- Instances of the amended C8: a session that signs in as `ada` (user present,
`authed`), and the same session after it has signed out (user `null`, `anon`). -/
theorem user_present_iff_authed_unless_null_body_witness :
    neverDeliversNullUser [.sessionDone (.response 200 (.ok ada))] = true ∧
    (run [.sessionDone (.response 200 (.ok ada))]).state.user = ada ∧
    ada ≠ .null ∧
    (run [.sessionDone (.response 200 (.ok ada))]).state.status = .authed ∧
    ((run [.sessionDone (.response 200 (.ok ada))]).state.user ≠ .null ↔
      (run [.sessionDone (.response 200 (.ok ada))]).state.status = .authed) ∧
    (run [.sessionDone (.response 200 (.ok ada)), .clickLogout,
          .logoutDone (.response 200 (.ok .null))]).state.status = .anon ∧
    (run [.sessionDone (.response 200 (.ok ada)), .clickLogout,
          .logoutDone (.response 200 (.ok .null))]).state.user = .null :=
  have hne : ada ≠ .null := by simp [ada]
  ⟨rfl, rfl, hne,
    (user_present_iff_authed_unless_null_body
      [.sessionDone (.response 200 (.ok ada))]).1 hne,
    (user_present_iff_authed_unless_null_body
      [.sessionDone (.response 200 (.ok ada))]).2 rfl,
    rfl, rfl⟩

end App
